import Mathlib

/-!
Shallow embedding of the Design-Patterns repository:
  * `src/Proxy Pattern/README.md` — the validation-handler version of
    `personProxy` (the `get`/`set` traps with age/name validation).
  * `src/Singleton Pattern/src/counter.js` — the `Counter` class, its
    module-level `instance` and `counter` variables, and the frozen
    exported instance `count`.

JavaScript objects are modelled as association lists of
(property name, value); machine values as an inductive `Value` type with
JavaScript truthiness; `console.log` output as a list of `LogMsg`, one
constructor per `console.log` call site in the source, with `render`
giving the exact printed string.
-/

namespace DesignPatterns

/-- JavaScript values occurring in the examples: numbers, strings,
booleans, `null` and `undefined`. -/
inductive Value where
  | num (n : Int)
  | str (s : String)
  | boolean (b : Bool)
  | null
  | undefined
deriving DecidableEq

/-- JavaScript truthiness of a `Value` (`!v` in the source is
`!(truthy v)`): `0`, `""`, `false`, `null` and `undefined` are falsy. -/
def truthy : Value → Bool
  | .num n => n != 0
  | .str s => s != ""
  | .boolean b => b
  | .null => false
  | .undefined => false

/-- `typeof value === "number"` — the age validation test in `set`. -/
def isNumber : Value → Bool
  | .num _ => true
  | _ => false

/-- Outcome of evaluating the JavaScript expression `value.length < 2`:
either a thrown `TypeError`, or a boolean. -/
inductive LengthCheck where
  | threw
  | result (b : Bool)
deriving DecidableEq

/-- `value.length < 2` with JavaScript semantics: a string compares its
length; a number or boolean has no `length` property, so `value.length`
is `undefined` and `undefined < 2` is `false`; on `null` and `undefined`
the property access `value.length` itself throws a `TypeError`. -/
def lengthLtTwo : Value → LengthCheck
  | .str s => .result (s.length < 2)
  | .num _ => .result false
  | .boolean _ => .result false
  | .null => .threw
  | .undefined => .threw

/-- A JavaScript object as an association list of own properties. -/
abbrev Obj := List (String × Value)

/-- Property read `obj[prop]`: the stored value, or `undefined` when the
property is absent. -/
def jsGet : Obj → String → Value
  | [], _ => Value.undefined
  | kv :: rest, prop => if kv.1 = prop then kv.2 else jsGet rest prop

/-- Property write `obj[prop] = value`: overwrite an existing property in
place, or create a new one. -/
def jsSet : Obj → String → Value → Obj
  | [], prop, v => [(prop, v)]
  | kv :: rest, prop, v =>
      if kv.1 = prop then (prop, v) :: rest else kv :: jsSet rest prop v

/-- Whether `prop` is an own property of `obj`. -/
def hasProp : Obj → String → Bool
  | [], _ => false
  | kv :: rest, prop => kv.1 == prop || hasProp rest prop

/-- One `console.log` message of the proxy handlers, one constructor per
call site in the validation version of `personProxy`. -/
inductive LogMsg where
  | notFound
  | valueOf (prop : String) (v : Value)
  | rejectAge
  | rejectName
  | changed (prop : String) (oldV newV : Value)
deriving DecidableEq

/-- `${v}` — how a `Value` prints inside a template literal. -/
def jsToString : Value → String
  | .num n => toString n
  | .str s => s
  | .boolean b => if b then "true" else "false"
  | .null => "null"
  | .undefined => "undefined"

/-- The exact string each `console.log` call site prints. -/
def render : LogMsg → String
  | .notFound => "Hmm.. this property doesn't seem to exist on the target object"
  | .valueOf p v => "The value of " ++ p ++ " is " ++ jsToString v
  | .rejectAge => "Sorry, you can only pass numeric values for age."
  | .rejectName => "You need to provide a valid name."
  | .changed p o n =>
      "Changed " ++ p ++ " from " ++ jsToString o ++ " to " ++ jsToString n ++ "."

/-- The `get` trap of the validation version of `personProxy`:
`if (!obj[prop])` log the not-found notice, else log the value.  The
handler body never mutates `obj` and never returns a value, so every
proxied read evaluates to `undefined`.  Result: (object after the read,
value the property access evaluates to, console output). -/
def proxyGet (obj : Obj) (prop : String) : Obj × Value × List LogMsg :=
  if truthy (jsGet obj prop) = false then
    (obj, Value.undefined, [LogMsg.notFound])
  else
    (obj, Value.undefined, [LogMsg.valueOf prop (jsGet obj prop)])

/-- Outcome of one `set` trap call: either a thrown `TypeError` —
aborting the call before anything is logged or written — or the target
after the call together with the console output. -/
inductive SetResult where
  | thrown
  | done (obj : Obj) (logs : List LogMsg)
deriving DecidableEq

/-- The `set` trap of the validation version of `personProxy`: reject a
non-number written to `age`; for `name`, evaluate `value.length < 2`
(which throws a `TypeError` on `null`/`undefined`, aborting the call)
and reject a too-short name; otherwise log the change and perform
`obj[prop] = value`.  The `&&` in the source short-circuits, so
`value.length` is only evaluated when the property is `name`. -/
def proxySet (obj : Obj) (prop : String) (value : Value) : SetResult :=
  if prop = "age" ∧ isNumber value = false then
    .done obj [LogMsg.rejectAge]
  else if prop = "name" then
    match lengthLtTwo value with
    | .threw => .thrown
    | .result true => .done obj [LogMsg.rejectName]
    | .result false =>
        .done (jsSet obj prop value) [LogMsg.changed prop (jsGet obj prop) value]
  else
    .done (jsSet obj prop value) [LogMsg.changed prop (jsGet obj prop) value]

/-- The target after a `set` trap call: a thrown `TypeError` aborts the
assignment, leaving the target as it was. -/
def setObj (obj : Obj) (prop : String) (value : Value) : Obj :=
  match proxySet obj prop value with
  | .thrown => obj
  | .done o _ => o

/-- The console output of a `set` trap call: a thrown `TypeError` aborts
the call before anything is logged. -/
def setLogs (obj : Obj) (prop : String) (value : Value) : List LogMsg :=
  match proxySet obj prop value with
  | .thrown => []
  | .done _ l => l

/-- The condition under which the `set` trap reaches its final branch and
actually writes: the write passes validation, and the validation check
itself does not throw. -/
def SetAccepts (prop : String) (value : Value) : Prop :=
  ¬(prop = "age" ∧ isNumber value = false) ∧
  (prop = "name" → lengthLtTwo value = LengthCheck.result false)

instance (prop : String) (value : Value) : Decidable (SetAccepts prop value) := by
  unfold SetAccepts; infer_instance

/-- A `LogMsg` that records a successful write: the `Changed ... from ...
to ...` line, the code's audit-log entry.  The rejection notices and the
read notices are not audit entries. -/
def isAudit : LogMsg → Bool
  | .changed _ _ _ => true
  | _ => false

/-- The audit-log entries among a console output. -/
def auditEntries (l : List LogMsg) : List LogMsg := l.filter isAudit

/-- The `person` target object from the README. -/
def person : Obj :=
  [("name", Value.str "John Doe"), ("age", Value.num 42),
   ("nationality", Value.str "American")]

/-! Singleton Pattern: `src/Singleton Pattern/src/counter.js`. -/

/-- A JavaScript object on the heap: its own properties and whether
`Object.freeze` has been applied to it. -/
structure JsObj where
  ownProps : Obj
  frozen : Bool
deriving DecidableEq

/-- Sloppy-mode property assignment on a heap object: on a frozen object
the assignment fails silently and the object is unchanged. -/
def jsSetOwn (o : JsObj) (k : String) (v : Value) : JsObj :=
  if o.frozen then o else { o with ownProps := jsSet o.ownProps k v }

/-- The state of the `counter.js` module: the `let instance;` variable
(declared on line 1 and never assigned anywhere in the file), the
`let counter = 0;` variable, and the heap of `Counter` objects allocated
by `new Counter()` — a list indexed by allocation order, the index being
the object's identity. -/
structure CounterWorld where
  instanceVar : Option Nat
  counter : Int
  heap : List JsObj
deriving DecidableEq

/-- Module state before any statement runs: `instance` undefined,
`counter = 0`, no object allocated yet. -/
def counterInit : CounterWorld := { instanceVar := none, counter := 0, heap := [] }

/-- `new Counter()`.  The class declares no constructor, so the default
constructor runs: it allocates a fresh object and touches nothing else —
in particular it never checks `instance`, never assigns it, and has no
`throw` statement (the function is total and returns on every input).
Returns the new module state and the identity of the new object. -/
def counterNew (w : CounterWorld) : CounterWorld × Nat :=
  ({ w with heap := w.heap ++ [{ ownProps := [], frozen := false }] }, w.heap.length)

/-- Replace the object at index `i` of a heap by `f` of it. -/
def heapUpdate : List JsObj → Nat → (JsObj → JsObj) → List JsObj
  | [], _, _ => []
  | o :: rest, 0, f => f o :: rest
  | o :: rest, n + 1, f => o :: heapUpdate rest n f

/-- `Object.freeze(x)` on the object with identity `i`. -/
def objFreeze (w : CounterWorld) (i : Nat) : CounterWorld :=
  { w with heap := heapUpdate w.heap i (fun o => { o with frozen := true }) }

/-- An assignment `x.k = v` performed from outside on the object with
identity `i` (sloppy mode: silently ignored when the object is frozen). -/
def heapSetProp (w : CounterWorld) (i : Nat) (k : String) (v : Value) : CounterWorld :=
  { w with heap := heapUpdate w.heap i (fun o => jsSetOwn o k v) }

/-- `getInstance() { return this; }` — returns the receiver, touches no
state, has no throw path. -/
def getInstance (self : Nat) : Nat := self

/-- `getCount() { return counter; }` — reads the module-level `counter`;
the receiver is unused. -/
def getCount (_self : Nat) (w : CounterWorld) : CounterWorld × Int :=
  (w, w.counter)

/-- `increment() { return ++counter }` — adds 1 to the module-level
`counter` and returns the new value; the receiver is unused. -/
def increment (_self : Nat) (w : CounterWorld) : CounterWorld × Int :=
  ({ w with counter := w.counter + 1 }, w.counter + 1)

/-- `decrement() { return --counter }` — subtracts 1 from the
module-level `counter` and returns the new value; the receiver is
unused. -/
def decrement (_self : Nat) (w : CounterWorld) : CounterWorld × Int :=
  ({ w with counter := w.counter - 1 }, w.counter - 1)

/-- `const count = Object.freeze(new Counter());` — the module-load
statement: construct the one exported instance and freeze it. -/
def moduleLoad : CounterWorld × Nat :=
  let p := counterNew counterInit
  (objFreeze p.1 p.2, p.2)

/-- The module state after `counter.js` has loaded. -/
def moduleWorld : CounterWorld := moduleLoad.1

/-- The exported instance `count` (its heap identity). -/
def count : Nat := moduleLoad.2

/-- A call made on a `Counter` handle: `increment()` or `decrement()`. -/
inductive Op where
  | inc
  | dec
deriving DecidableEq

/-- Run one `Op` on the module state, discarding the returned value. -/
def step (self : Nat) (w : CounterWorld) : Op → CounterWorld
  | Op.inc => (increment self w).1
  | Op.dec => (decrement self w).1

/-- Run a sequence of `increment`/`decrement` calls. -/
def runOps (self : Nat) : List Op → CounterWorld → CounterWorld
  | [], w => w
  | op :: ops, w => runOps self ops (step self w op)

/-- The net sum of the +1 and -1 operations in a call sequence. -/
def netSum : List Op → Int
  | [] => 0
  | Op.inc :: ops => netSum ops + 1
  | Op.dec :: ops => netSum ops - 1

/-! Helper lemmas. -/

/-- Reading back a property just written returns the written value. -/
theorem jsGet_jsSet_self (obj : Obj) (p : String) (v : Value) :
    jsGet (jsSet obj p v) p = v := by
  induction obj with
  | nil => simp [jsSet, jsGet]
  | cons kv rest ih =>
      by_cases h : kv.1 = p
      · simp [jsSet, h, jsGet]
      · simp [jsSet, h, jsGet, ih]

/-- Reading an absent property yields `undefined`. -/
theorem jsGet_of_not_hasProp (obj : Obj) (p : String) (h : hasProp obj p = false) :
    jsGet obj p = Value.undefined := by
  induction obj with
  | nil => simp [jsGet]
  | cons kv rest ih =>
      simp [hasProp, Bool.or_eq_false_iff] at h
      simp [jsGet, h.1, ih h.2]

/-- An accepted write reaches the final branch of the `set` trap: the
value is stored and the change is logged. -/
theorem proxySet_accepts (obj : Obj) (p : String) (v : Value) (h : SetAccepts p v) :
    proxySet obj p v =
      SetResult.done (jsSet obj p v) [LogMsg.changed p (jsGet obj p) v] := by
  unfold proxySet
  rw [if_neg h.1]
  by_cases hp : p = "name"
  · rw [if_pos hp, h.2 hp]
  · rw [if_neg hp]

/-- The module state of `counter.js` after load, computed. -/
theorem moduleWorld_eq :
    moduleWorld =
      { instanceVar := none, counter := 0,
        heap := [{ ownProps := [], frozen := true }] } := by
  decide

/-- `runOps` changes `counter` by exactly the net sum of the operations
and never touches `instance` or the heap. -/
theorem runOps_spec (self : Nat) (ops : List Op) (w : CounterWorld) :
    (runOps self ops w).counter = w.counter + netSum ops ∧
    (runOps self ops w).instanceVar = w.instanceVar ∧
    (runOps self ops w).heap = w.heap := by
  induction ops generalizing w with
  | nil => simp [runOps, netSum]
  | cons op ops ih =>
      cases op with
      | inc =>
          have h := ih ((step self w Op.inc))
          simp [runOps, step, increment, netSum] at h ⊢
          refine ⟨?_, h.2⟩
          rw [h.1]; ring
      | dec =>
          have h := ih ((step self w Op.dec))
          simp [runOps, step, decrement, netSum] at h ⊢
          refine ⟨?_, h.2⟩
          rw [h.1]; ring

/-! Claim theorems. -/

/-- C3 (code bug): the claim says a second direct construction attempt
throws an `AlreadyConstructed` error.  In `counter.js` the `Counter`
class declares no constructor and never assigns the `instance` variable,
so `new Counter()` after module load succeeds with no error: it returns
a fresh object (identity 1) distinct from the exported `count`
(identity 0), and leaves the counter state and the never-assigned
`instance` variable untouched. -/
theorem C3_second_construction_succeeds :
    (counterNew moduleWorld).2 = 1 ∧
    count = 0 ∧
    (counterNew moduleWorld).2 ≠ count ∧
    (counterNew moduleWorld).1.counter = moduleWorld.counter ∧
    (counterNew moduleWorld).1.instanceVar = none := by
  decide

/-- C4: `getInstance()` returns its receiver, so calling it any number
of times starting from the exported handle `count` yields `count` every
time; and every handle references the same underlying state — `getCount`
returns the module-level counter regardless of the receiver.
`getInstance` is a total function with no throw path, so it never raises
`AlreadyConstructed`. -/
theorem C4_getInstance_stable :
    (∀ n : Nat, Nat.iterate getInstance n count = count) ∧
    (∀ (i j : Nat) (w : CounterWorld), (getCount i w).2 = (getCount j w).2) := by
  constructor
  · intro n
    induction n with
    | zero => rfl
    | succ k ih => simpa [Nat.iterate, getInstance] using ih
  · intro i j w
    rfl

/-- C5: `increment()` adds exactly 1 to the counter and returns the new
value, `decrement()` subtracts exactly 1 and returns the new value with
no floor (from 0 a single decrement yields -1); from the freshly loaded
module (counter 0), three increments followed by one decrement make
`getCount()` return 2; and after any call sequence the counter equals
the net sum of the +1 and -1 operations. -/
theorem C5_counter_arithmetic :
    (∀ (i : Nat) (w : CounterWorld),
        (increment i w).2 = w.counter + 1 ∧
        (increment i w).1.counter = w.counter + 1) ∧
    (∀ (i : Nat) (w : CounterWorld),
        (decrement i w).2 = w.counter - 1 ∧
        (decrement i w).1.counter = w.counter - 1) ∧
    (decrement count moduleWorld).2 = -1 ∧
    (getCount count (runOps count [Op.inc, Op.inc, Op.inc, Op.dec] moduleWorld)).2 = 2 ∧
    (∀ (i : Nat) (ops : List Op) (w : CounterWorld),
        (runOps i ops w).counter = w.counter + netSum ops) := by
  refine ⟨fun i w => ⟨rfl, rfl⟩, fun i w => ⟨rfl, rfl⟩, by decide, by decide, ?_⟩
  intro i ops w
  exact (runOps_spec i ops w).1

/-- C8: the exported instance is frozen, so an outside assignment adding
or overwriting one of its properties never succeeds (it fails silently,
leaving the state unchanged); and no counter operation changes anything
but the counter value — the heap of objects and the `instance` variable
are untouched by `increment`/`decrement`, and `getCount` changes
nothing. -/
theorem C8_frozen_holder :
    (∀ (k : String) (v : Value), heapSetProp moduleWorld count k v = moduleWorld) ∧
    (∀ (i : Nat) (w : CounterWorld),
        (increment i w).1.heap = w.heap ∧
        (increment i w).1.instanceVar = w.instanceVar) ∧
    (∀ (i : Nat) (w : CounterWorld),
        (decrement i w).1.heap = w.heap ∧
        (decrement i w).1.instanceVar = w.instanceVar) ∧
    (∀ (i : Nat) (w : CounterWorld), (getCount i w).1 = w) := by
  refine ⟨?_, fun i w => ⟨rfl, rfl⟩, fun i w => ⟨rfl, rfl⟩, fun i w => rfl⟩
  intro k v
  have hc : count = 0 := by decide
  rw [hc, moduleWorld_eq]
  simp [heapSetProp, heapUpdate, jsSetOwn]

/-- C9: the counter is the module-level `counter` variable, shared by
every `Counter` instance: an `increment` or `decrement` performed
through any instance `i` is observed by `getCount` on any other instance
`j`; a second, distinct instance freshly constructed observes the shared
counter the same way; and freezing the exported instance does not
prevent the counter from changing — `count` is frozen, yet `increment`
through it still bumps the counter. -/
theorem C9_shared_module_state :
    (∀ (w : CounterWorld) (i j : Nat),
        (getCount j (increment i w).1).2 = w.counter + 1) ∧
    (∀ (w : CounterWorld) (i j : Nat),
        (getCount j (decrement i w).1).2 = w.counter - 1) ∧
    (counterNew moduleWorld).2 ≠ count ∧
    (getCount count (increment (counterNew moduleWorld).2
        (counterNew moduleWorld).1).1).2 = 1 ∧
    moduleWorld.heap = [{ ownProps := [], frozen := true }] ∧
    (increment count moduleWorld).1.counter = moduleWorld.counter + 1 := by
  exact ⟨fun w i j => rfl, fun w i j => rfl, by decide, by decide, by decide, rfl⟩

/-- C1: a proxied write that fails validation — a non-number written to
`age`, or a string shorter than 2 written to `name` — leaves the target
completely unchanged and emits the corresponding rejection notice on the
console, a side channel the caller can observe (the output is the
non-empty rejection message, distinct from the success log), not a
silent no-op. -/
theorem C1_rejected_write :
    (∀ (obj : Obj) (v : Value), isNumber v = false →
        proxySet obj "age" v = SetResult.done obj [LogMsg.rejectAge]) ∧
    (∀ (obj : Obj) (s : String), s.length < 2 →
        proxySet obj "name" (Value.str s) = SetResult.done obj [LogMsg.rejectName]) ∧
    render LogMsg.rejectAge = "Sorry, you can only pass numeric values for age." ∧
    render LogMsg.rejectName = "You need to provide a valid name." ∧
    ([LogMsg.rejectAge] ≠ ([] : List LogMsg)) ∧
    ([LogMsg.rejectName] ≠ ([] : List LogMsg)) := by
  refine ⟨?_, ?_, rfl, rfl, by decide, by decide⟩
  · intro obj v h
    simp [proxySet, h]
  · intro obj s h
    have hne : ("name" : String) ≠ "age" := by decide
    simp [proxySet, lengthLtTwo, h, hne]

/-- C1 witness: writing the string "abc" to `age` and the string "A" to
`name` through the proxy are both rejected with the target unchanged. -/
theorem C1_witness :
    proxySet person "age" (Value.str "abc") = SetResult.done person [LogMsg.rejectAge] ∧
    proxySet person "name" (Value.str "A") = SetResult.done person [LogMsg.rejectName] :=
  ⟨C1_rejected_write.1 person (Value.str "abc") (by decide),
   C1_rejected_write.2.1 person "A" (by decide)⟩

/-- C2 counterexample: writing the valid value 43 to `age` through the
proxy and then immediately reading `age` through the proxy returns
`undefined`, not 43 — the `get` trap only logs and returns no value, so
the round-trip read does not return the written value. -/
theorem C2_counterexample :
    (proxyGet (setObj person "age" (Value.num 43)) "age").2.1 = Value.undefined ∧
    Value.undefined ≠ Value.num 43 := by
  decide

/-- C2 amended: writing a valid value `v` to field `f` through the proxy
(one the `set` trap accepts — which excludes `null`/`undefined` written
to `name`, where the validation check itself throws a `TypeError`)
stores exactly `v` on the target, and the immediate proxied read of `f`
observes that stored value — when `v` is truthy the read logs the value
`v` — but the read itself evaluates to `undefined`, because the `get`
trap only logs and returns nothing. -/
theorem C2_amended_roundtrip :
    ∀ (obj : Obj) (f : String) (v : Value), SetAccepts f v →
      jsGet (setObj obj f v) f = v ∧
      (proxyGet (setObj obj f v) f).2.1 = Value.undefined ∧
      (truthy v = true →
        (proxyGet (setObj obj f v) f).2.2 = [LogMsg.valueOf f v]) := by
  intro obj f v h
  have hobj : setObj obj f v = jsSet obj f v := by
    unfold setObj
    rw [proxySet_accepts obj f v h]
  rw [hobj]
  refine ⟨jsGet_jsSet_self obj f v, ?_, ?_⟩
  · unfold proxyGet
    split <;> rfl
  · intro ht
    simp [proxyGet, jsGet_jsSet_self, ht]

/-- C2 amended witness: writing 43 to `age` stores 43 on the target, the
proxied read logs the value 43, and the read evaluates to `undefined`. -/
theorem C2_amended_witness :
    jsGet (setObj person "age" (Value.num 43)) "age" = Value.num 43 ∧
    (proxyGet (setObj person "age" (Value.num 43)) "age").2.1 = Value.undefined ∧
    (proxyGet (setObj person "age" (Value.num 43)) "age").2.2 =
      [LogMsg.valueOf "age" (Value.num 43)] := by
  have h := C2_amended_roundtrip person "age" (Value.num 43) (by decide)
  exact ⟨h.1, h.2.1, h.2.2 (by decide)⟩

/-- C6: reading through the proxy a property absent from the target hits
the defined not-found path — the read evaluates to `undefined` and logs
the not-found notice, no error is thrown (the handler is a total
function) and no audit-log entry is produced; proxied reads never change
the target, and `getCount()` returns the counter with no side effect on
the state. -/
theorem C6_missing_property_read :
    (∀ (obj : Obj) (p : String), hasProp obj p = false →
        proxyGet obj p = (obj, Value.undefined, [LogMsg.notFound]) ∧
        auditEntries (proxyGet obj p).2.2 = []) ∧
    (∀ (obj : Obj) (p : String), (proxyGet obj p).1 = obj) ∧
    (∀ (i : Nat) (w : CounterWorld), getCount i w = (w, w.counter)) := by
  refine ⟨?_, ?_, fun i w => rfl⟩
  · intro obj p h
    have hg : jsGet obj p = Value.undefined := jsGet_of_not_hasProp obj p h
    refine ⟨?_, ?_⟩
    · simp [proxyGet, hg, truthy]
    · simp [proxyGet, hg, truthy, auditEntries, isAudit]
  · intro obj p
    unfold proxyGet
    split <;> rfl

/-- C6 witness: reading the absent property `job` on `person` returns
`undefined` with the not-found notice and produces no audit entry. -/
theorem C6_witness :
    proxyGet person "job" = (person, Value.undefined, [LogMsg.notFound]) ∧
    auditEntries (proxyGet person "job").2.2 = [] :=
  C6_missing_property_read.1 person "job" (by decide)

/-- C7 counterexample: the successful write `name = "Al"` produces
exactly one audit entry, and that entry carries only the property name,
the old value and the new value — its full rendered console text is the
fixed string "Changed name from John Doe to Al.", which contains no
digit at all, hence no timestamp of any representation. -/
theorem C7_no_timestamp_counterexample :
    proxySet person "name" (Value.str "Al") =
      SetResult.done
        [("name", Value.str "Al"), ("age", Value.num 42),
         ("nationality", Value.str "American")]
        [LogMsg.changed "name" (Value.str "John Doe") (Value.str "Al")] ∧
    render (LogMsg.changed "name" (Value.str "John Doe") (Value.str "Al")) =
      "Changed name from John Doe to Al." ∧
    ("Changed name from John Doe to Al.".toList.all fun c => !c.isDigit) = true := by
  decide

/-- C7 amended: every successful proxied write produces exactly one
audit-log entry, containing the property name, the old value equal to
the property's prior value and the new value equal to the written value
(no timestamp is recorded); unsuccessful writes — rejections as well as
the `TypeError` thrown on `null`/`undefined` written to `name` — and
reads produce no audit entry and leave the target unchanged. -/
theorem C7_amended_audit :
    (∀ (obj : Obj) (p : String) (v : Value), SetAccepts p v →
        setLogs obj p v = [LogMsg.changed p (jsGet obj p) v] ∧
        auditEntries (setLogs obj p v) = [LogMsg.changed p (jsGet obj p) v]) ∧
    (∀ (obj : Obj) (p : String) (v : Value), ¬ SetAccepts p v →
        auditEntries (setLogs obj p v) = [] ∧ setObj obj p v = obj) ∧
    (∀ (obj : Obj) (p : String), auditEntries (proxyGet obj p).2.2 = []) := by
  refine ⟨?_, ?_, ?_⟩
  · intro obj p v h
    have hl : setLogs obj p v = [LogMsg.changed p (jsGet obj p) v] := by
      unfold setLogs
      rw [proxySet_accepts obj p v h]
    exact ⟨hl, by rw [hl]; simp [auditEntries, isAudit]⟩
  · intro obj p v h
    by_cases hA : p = "age" ∧ isNumber v = false
    · constructor
      · simp [setLogs, proxySet, hA, auditEntries, isAudit]
      · simp [setObj, proxySet, hA]
    · have hp : p = "name" := by
        unfold SetAccepts at h
        by_cases hp : p = "name"
        · exact hp
        · exact absurd ⟨hA, fun h2 => absurd h2 hp⟩ h
      have hl : lengthLtTwo v ≠ LengthCheck.result false := by
        intro hl
        exact h ⟨hA, fun _ => hl⟩
      subst hp
      rcases hv : lengthLtTwo v with _ | b
      · constructor
        · simp [setLogs, proxySet, hA, hv, auditEntries]
        · simp [setObj, proxySet, hA, hv]
      · cases b with
        | false => exact absurd hv hl
        | true =>
            constructor
            · simp [setLogs, proxySet, hA, hv, auditEntries, isAudit]
            · simp [setObj, proxySet, hA, hv]
  · intro obj p
    unfold proxyGet
    split <;> simp [auditEntries, isAudit]

/-- C7 amended witness: the accepted write `name = "Al"` on `person`
produces exactly the one audit entry recording the prior value; the
rejected write `age = "abc"` and the throwing write `name = null`
produce none and leave `person` unchanged. -/
theorem C7_amended_witness :
    setLogs person "name" (Value.str "Al") =
      [LogMsg.changed "name" (jsGet person "name") (Value.str "Al")] ∧
    auditEntries (setLogs person "age" (Value.str "abc")) = [] ∧
    setObj person "age" (Value.str "abc") = person ∧
    auditEntries (setLogs person "name" Value.null) = [] ∧
    setObj person "name" Value.null = person :=
  ⟨(C7_amended_audit.1 person "name" (Value.str "Al") (by decide)).1,
   (C7_amended_audit.2.1 person "age" (Value.str "abc") (by decide)).1,
   (C7_amended_audit.2.1 person "age" (Value.str "abc") (by decide)).2,
   (C7_amended_audit.2.1 person "name" Value.null (by decide)).1,
   (C7_amended_audit.2.1 person "name" Value.null (by decide)).2⟩

/-- C10: the missing-property check of the `get` trap tests only the
truthiness of `obj[prop]`, so reading an existing property whose current
value is falsy (0, the empty string, `false`, `null` or `undefined`)
takes the not-found path — exactly the same output as reading a property
that is genuinely absent, so the proxy cannot distinguish the two. -/
theorem C10_falsy_value_read :
    (∀ (obj : Obj) (p : String), hasProp obj p = true →
        truthy (jsGet obj p) = false →
        proxyGet obj p = (obj, Value.undefined, [LogMsg.notFound])) ∧
    (∀ (obj : Obj) (p : String), hasProp obj p = false →
        proxyGet obj p = (obj, Value.undefined, [LogMsg.notFound])) := by
  constructor
  · intro obj p _hp ht
    simp [proxyGet, ht]
  · intro obj p hp
    simp [proxyGet, jsGet_of_not_hasProp obj p hp, truthy]

/-- C10 witness: on a target whose `age` property is present and holds
the falsy value 0, the proxied read of `age` takes the not-found path. -/
theorem C10_witness :
    hasProp [("age", Value.num 0)] "age" = true ∧
    proxyGet [("age", Value.num 0)] "age" =
      ([("age", Value.num 0)], Value.undefined, [LogMsg.notFound]) :=
  ⟨by decide,
   C10_falsy_value_read.1 [("age", Value.num 0)] "age" (by decide) (by decide)⟩

end DesignPatterns
